import Mathlib

/-!
# DiskForge core — shallow embedding and verification

This file embeds the core of the DiskForge repository (device-safety
classifier, device enumeration backends, and the image-writing engine,
from `src/core/safety.py`, `src/core/disk_manager_linux.py`,
`src/core/disk_manager_mac.py`, `src/core/disk_manager_window.py` and
`src/core/usb_creator.py`) into Lean, and proves or refutes the
specification's claims about it.

Conventions of the embedding:
- results of operating-system queries (`psutil.disk_partitions()`,
  `subprocess.run`, sysfs reads, plist parses, WMI queries) are passed
  in as explicit arguments; a query that raises an exception is an
  `Except.error` (or `none`) value, a query that returns normally is
  `Except.ok` (or `some`);
- Python `try/except` blocks become `match` on those `Except` values,
  following exactly what the source's handler does;
- mutable object attributes (`self._progress`, `self._status`,
  `self._running`) become an explicit `EngineState` record threaded
  through the functions;
- side-effecting subprocess invocations are recorded as an argv trace
  (`List (List String)`) returned alongside the result.
-/

/-- A `psutil.disk_partitions()` entry as consumed by
`SafetyManager.is_safe_device` (safety.py): device path, mountpoint and
filesystem type. -/
structure PartitionEntry where
  device : String
  mountpoint : String
  fstype : String
deriving Repr, DecidableEq

/-- Embeds `SafetyManager._get_protected_mountpoints` (safety.py lines
77-84) on a POSIX host: the fixed protected-mountpoint set (the Windows
branch additionally inserts the three `C:` paths). -/
def get_protected_mountpoints : List String :=
  ["/boot", "/efi", "/", "/usr", "/var", "/etc", "/bin", "/sbin"]

/-- Embeds `SafetyManager.is_safe_device` (safety.py lines 86-102).
`system_drives` is the set computed by `_get_system_drives` at
construction; `partitionsQuery` is the outcome of
`psutil.disk_partitions()` — `Except.error ()` models the call raising,
which the source catches with a bare `except: pass` and then falls
through to `return True`. -/
def is_safe_device (system_drives protected_mountpoints : List String)
    (partitionsQuery : Except Unit (List PartitionEntry))
    (device_path : String) : Bool :=
  if system_drives.contains device_path then
    false
  else
    match partitionsQuery with
    | Except.error _ => true
    | Except.ok partitions =>
        if partitions.any (fun partition =>
            (device_path.isPrefixOf partition.device
              || partition.device.isPrefixOf device_path)
            && protected_mountpoints.contains partition.mountpoint) then
          false
        else
          true

theorem string_list_contains_iff (l : List String) (a : String) :
    l.contains a = true ↔ a ∈ l :=
  List.elem_iff

/-- C1: `is_safe_device` returns false exactly when the device identity is
in the protected system-device set, or some partition returned by the OS
query stands in a prefix relationship with the device (in either
direction) and is mounted on a protected mountpoint; in particular it
returns true when the device is not protected and no partition overlaps. -/
theorem is_safe_device_spec (sys prot : List String)
    (parts : List PartitionEntry) (d : String) :
    is_safe_device sys prot (Except.ok parts) d = false ↔
      (d ∈ sys ∨ ∃ p, p ∈ parts ∧
        (d.isPrefixOf p.device = true ∨ p.device.isPrefixOf d = true) ∧
        p.mountpoint ∈ prot) := by
  unfold is_safe_device
  by_cases hd : d ∈ sys
  · simp [string_list_contains_iff, hd]
  · simp [hd, List.any_eq_true, Bool.and_eq_true, Bool.or_eq_true,
      string_list_contains_iff]

/-- C2: evaluating the classifier at a failing OS query: for the device
`/dev/sdb`, not in the protected set, with `psutil.disk_partitions()`
raising, `is_safe_device` swallows the exception and reports the device
safe (`true`). -/
theorem is_safe_device_query_failure :
    is_safe_device ["/dev/sda", "/dev/sda1"] get_protected_mountpoints
      (Except.error ()) "/dev/sdb" = true := by
  rfl

/-! ## The image-writing engine (`src/core/usb_creator.py`)

`USBCreator` keeps three mutable attributes: `_progress`, `_status` and
`_running`; they form the `EngineState` record. The worker thread and the
`dd` monitor loop are embedded as explicit state-transition functions;
the outcomes of the external effects (file-existence test, safety check,
the subordinate `dd` process, the byte-count probe) are arguments.

One call needs no outcome argument because its outcome is fixed by the
source itself: `create_bootable_usb` (usb_creator.py line 69) and the
three `format_device` backends invoke `self.safety.get_confirmation`,
but `SafetyManager` (safety.py) defines no such method — only
`get_user_confirmation`, `get_confirmation_message`, `get_device_info`,
`is_safe_device`, `validate_operation` — and nothing in the repository
adds one, so every reaching call raises `AttributeError`. Raised Python
exceptions are `Except.error` values carrying a `PyError`. -/

/-- A raised Python exception, by class. -/
inductive PyError where
  | valueError (message : String)
  | attributeError (message : String)
deriving Repr, DecidableEq

/-- Embeds the expression `self.safety.get_confirmation(device_path,
operation)` (usb_creator.py line 69; disk_manager_linux.py line 189;
disk_manager_mac.py line 205; disk_manager_window.py line 183):
`SafetyManager` has no attribute `get_confirmation` (safety.py defines
`get_user_confirmation` instead), so the lookup always raises
`AttributeError`. -/
def safety_get_confirmation (_device_path _operation : String) :
    Except PyError Bool :=
  Except.error (PyError.attributeError
    "SafetyManager object has no attribute get_confirmation")

/-- The mutable state of a `USBCreator` instance: `self._progress`,
`self._status`, `self._running` (usb_creator.py lines 20-22). -/
structure EngineState where
  progress : Nat
  status : String
  running : Bool
deriving Repr, DecidableEq

/-- Embeds the control flow of `USBCreator.create_bootable_usb`
(usb_creator.py lines 40-85). `iso_exists` and `safe` are the outcomes
of `os.path.exists` and `SafetyManager.is_safe_device`. After those
checks the source calls `self.safety.get_confirmation` (line 69), which
always raises `AttributeError` (see `safety_get_confirmation`); nothing
in the method catches it, so it propagates to the caller before
`_running` is set or the worker thread is started. The remaining
branches (cancellation by the user, method resolution, `_running = True`
and `thread.start()`, returning `True` — with no check of
`self._running` anywhere) are embedded as written but are unreachable
in the program. -/
def create_bootable_usb (s : EngineState) (iso_exists safe : Bool)
    (iso_path target_device : String) : EngineState × Except PyError Bool :=
  if !iso_exists then
    ({ s with status := "Error: ISO file not found: " ++ iso_path }, Except.ok false)
  else if !safe then
    ({ s with status := "Error: Cannot write to system device: " ++ target_device },
     Except.ok false)
  else
    match safety_get_confirmation target_device "create bootable USB" with
    | Except.error e => (s, Except.error e)
    | Except.ok false =>
        ({ s with status := "Operation cancelled by user" }, Except.ok false)
    | Except.ok true =>
        ({ s with running := true }, Except.ok true)

/-- Embeds `USBCreator.cancel` (usb_creator.py lines 87-92): clears
`_running`, sets the status, returns `True`. -/
def cancel (s : EngineState) : EngineState × Bool :=
  ({ s with running := false, status := "Cancelled by user" }, true)

/-- Embeds the opening progress update of `USBCreator._dd_method`
(usb_creator.py line 213): `self._update_progress(2, "Starting direct
disk write")`. -/
def dd_start (s : EngineState) : EngineState :=
  { s with progress := 2, status := "Starting direct disk write" }

/-- Embeds one iteration of the `dd` monitor loop body on Linux
(usb_creator.py lines 235-248). `written_bytes` is the outcome of
`os.path.getsize(target_device)` (`none` = the probe raised, swallowed
by the inner `except`). Python's
`min(int((written_bytes / iso_size) * 100), 99)` (float division then
truncation) is rendered as truncating natural division. Returns the
updated engine state and the updated `last_progress` local. -/
def dd_monitor_step (iso_size : Nat) (written_bytes : Option Nat)
    (s : EngineState) (last_progress : Nat) : EngineState × Nat :=
  match written_bytes with
  | none => (s, last_progress)
  | some w =>
      let progress := min (w * 100 / iso_size) 99
      if last_progress < progress then
        ({ s with progress := progress,
                  status := "Writing ISO to device: " ++ toString progress ++ "%" },
         progress)
      else
        (s, last_progress)

/-- Embeds the exit path of `USBCreator._dd_method` after the monitor
loop (usb_creator.py lines 250-263): if `_running` was cleared the
subordinate process is terminated and `False` returned; otherwise the
process has exited with `return_code`, progress is set to 100 with the
syncing status, `sync` is run, and the method returns
`return_code == 0`. -/
def dd_exit (s : EngineState) (return_code : Int) : EngineState × Bool :=
  if !s.running then
    (s, false)
  else
    ({ s with progress := 100, status := "Write completed, syncing disk cache..." },
     return_code == 0)

/-- How the body of `_create_bootable_usb_thread` terminated: the
selected method returned `success`, or the body raised. -/
inductive WorkerBodyOutcome where
  | completed (success : Bool)
  | raised (message : String)
deriving Repr, DecidableEq

/-- Embeds the tail of `USBCreator._create_bootable_usb_thread`
(usb_creator.py lines 164-178): the final progress/status update chosen
from the method's outcome and `_running`, the `except` handler, and the
`finally` block that clears `_running`. -/
def create_bootable_usb_thread (s : EngineState) (outcome : WorkerBodyOutcome) :
    EngineState :=
  let s2 :=
    match outcome with
    | WorkerBodyOutcome.completed success =>
        if success && s.running then
          { s with progress := 100, status := "Bootable USB created successfully" }
        else if !s.running then
          { s with progress := 0, status := "Operation cancelled" }
        else
          { s with progress := 0, status := "Failed to create bootable USB" }
    | WorkerBodyOutcome.raised message =>
        { s with progress := 0, status := "Error creating bootable USB: " ++ message }
  { s2 with running := false }

/-- C3: evaluating `create_bootable_usb` at any engine state — in
particular one with a Running job — with an existing ISO and a safe
target: the call consults no busy flag and returns no EngineBusy
rejection; it propagates the `AttributeError` raised by the nonexistent
`SafetyManager.get_confirmation`, leaving the engine state unchanged.
The specified EngineBusy mechanism exists nowhere in the code (and,
since this path is the only one that sets `_running = True`, no job can
ever reach Running through it at all). -/
theorem create_bootable_usb_raises_attribute_error (s : EngineState)
    (iso_path target_device : String) :
    create_bootable_usb s true true iso_path target_device
      = (s, Except.error (PyError.attributeError
          "SafetyManager object has no attribute get_confirmation")) := by
  rfl

/-- C4 counterexample: a Running job at progress 55 is cancelled; the
worker observes the cleared flag at its next poll (`dd_exit` returns
`false`), and the thread tail then resets progress to 0 — the final
progress is 0, not the last reported value 55. -/
theorem cancel_resets_progress_counterexample :
    (cancel ⟨55, "Writing ISO to device: 55%", true⟩).1.progress = 55 ∧
    (create_bootable_usb_thread
        (dd_exit (cancel ⟨55, "Writing ISO to device: 55%", true⟩).1 0).1
        (WorkerBodyOutcome.completed
          (dd_exit (cancel ⟨55, "Writing ISO to device: 55%", true⟩).1 0).2)).progress
      = 0 := by
  exact ⟨rfl, rfl⟩

/-- C4 amended: `cancel` clears the running flag immediately (so the
monitor loop exits at its next poll) and sets the status, leaving the
progress value untouched at that moment; the `dd` exit path then returns
`false`, and the worker tail resets progress to 0 with status
"Operation cancelled" before clearing the running flag. -/
theorem cancel_behaviour (p : Nat) (st : String) (r : Bool) (rc : Int) :
    (cancel ⟨p, st, r⟩).1.running = false ∧
    (cancel ⟨p, st, r⟩).1.progress = p ∧
    (cancel ⟨p, st, r⟩).1.status = "Cancelled by user" ∧
    (dd_exit (cancel ⟨p, st, r⟩).1 rc).2 = false ∧
    (create_bootable_usb_thread (dd_exit (cancel ⟨p, st, r⟩).1 rc).1
      (WorkerBodyOutcome.completed false)).progress = 0 ∧
    (create_bootable_usb_thread (dd_exit (cancel ⟨p, st, r⟩).1 rc).1
      (WorkerBodyOutcome.completed false)).status = "Operation cancelled" ∧
    (create_bootable_usb_thread (dd_exit (cancel ⟨p, st, r⟩).1 rc).1
      (WorkerBodyOutcome.completed false)).running = false := by
  exact ⟨rfl, rfl, rfl, rfl, rfl, rfl, rfl⟩

/-- C5 counterexample: the subordinate `dd` process exits with return
code 1 while the job is still Running; the exit path reports progress
100 (before the sync and before the return code is consulted), even
though the method then returns `false`. -/
theorem dd_nonzero_exit_reports_100 :
    (dd_exit ⟨2, "Starting direct disk write", true⟩ 1).1.progress = 100 ∧
    (dd_exit ⟨2, "Starting direct disk write", true⟩ 1).2 = false := by
  exact ⟨rfl, by decide⟩

/-- C5 amended: during the monitor loop each step either leaves progress
and the recorded last value unchanged, or raises the recorded value to
`min (written * 100 / iso_size) 99` — capped at 99 and strictly above the
previously recorded loop value; once the process exits while Running the
exit path sets progress to exactly 100 regardless of the return code
(before the cache sync), and the method's success result is
`return_code == 0`. -/
theorem dd_progress_amended (iso_size : Nat) (w : Option Nat)
    (s : EngineState) (last : Nat) (p : Nat) (st : String) (rc : Int) :
    (((dd_monitor_step iso_size w s last).1.progress = s.progress ∧
        (dd_monitor_step iso_size w s last).2 = last) ∨
      ((dd_monitor_step iso_size w s last).2 ≤ 99 ∧
        last < (dd_monitor_step iso_size w s last).2 ∧
        (dd_monitor_step iso_size w s last).1.progress
          = (dd_monitor_step iso_size w s last).2)) ∧
    (dd_exit ⟨p, st, true⟩ rc).1.progress = 100 ∧
    (dd_exit ⟨p, st, true⟩ rc).2 = (rc == 0) := by
  refine ⟨?_, rfl, rfl⟩
  rcases w with _ | w
  · exact Or.inl ⟨rfl, rfl⟩
  · by_cases h : last < min (w * 100 / iso_size) 99
    · have hred : dd_monitor_step iso_size (some w) s last
          = ({ s with progress := min (w * 100 / iso_size) 99,
                      status := "Writing ISO to device: "
                        ++ toString (min (w * 100 / iso_size) 99) ++ "%" },
             min (w * 100 / iso_size) 99) := by
        simp only [dd_monitor_step, if_pos h]
      rw [hred]
      exact Or.inr ⟨Nat.min_le_right _ _, h, rfl⟩
    · have hred : dd_monitor_step iso_size (some w) s last = (s, last) := by
        simp only [dd_monitor_step, if_neg h]
      rw [hred]
      exact Or.inl ⟨rfl, rfl⟩

/-- C10: however the worker body terminates — method success, method
failure, cancellation observed, or an exception raised in the body — the
`finally` block clears the running flag, so the resulting engine state
always has `running = false`. -/
theorem worker_clears_running (s : EngineState) (outcome : WorkerBodyOutcome) :
    (create_bootable_usb_thread s outcome).running = false := by
  cases outcome <;> rfl

/-! ## Strategy selection (`USBCreator._determine_best_method`) -/

/-- Embeds `USBCreator._is_windows_iso` (usb_creator.py lines 114-126):
the marker probe (the `isoinfo ... /sources/install.wim` extraction, or
the PowerShell probe on a Windows host) is an `Except` input whose `ok`
payload is `returncode == 0`; an exception in the probe is caught and
yields `false`. -/
def is_windows_iso (probe : Except Unit Bool) : Bool :=
  match probe with
  | Except.ok rc_zero => rc_zero
  | Except.error _ => false

/-- Embeds `USBCreator._is_hybrid_iso` (usb_creator.py lines 128-146):
on a Windows host the function returns `true` unconditionally; otherwise
it consults the `EFI/BOOT` probe and then the `isolinux` probe (each an
`Except` whose `ok` payload is `returncode == 0`); an exception in
either probe is caught and yields `true` ("assume hybrid for safety"). -/
def is_hybrid_iso (host_is_windows : Bool)
    (efi_probe isolinux_probe : Except Unit Bool) : Bool :=
  if host_is_windows then
    true
  else
    match efi_probe with
    | Except.error _ => true
    | Except.ok true => true
    | Except.ok false =>
        match isolinux_probe with
        | Except.error _ => true
        | Except.ok rc_zero => rc_zero

/-- Embeds `USBCreator._determine_best_method` (usb_creator.py lines
101-112): Windows-installer marker first, then hybrid markers, else the
`dd` default. -/
def determine_best_method (windows_probe efi_probe isolinux_probe : Except Unit Bool)
    (host_is_windows : Bool) : String :=
  if is_windows_iso windows_probe then "windows"
  else if is_hybrid_iso host_is_windows efi_probe isolinux_probe then "hybrid"
  else "dd"

/-- The write strategies of the specification's data model. -/
inductive Strategy where
  | rawCopy
  | filesystemExtract
  | osInstallerExtract
deriving Repr, DecidableEq

/-- The strategy actually performed for a method string, per the
dispatch in `_create_bootable_usb_thread` (usb_creator.py lines
157-162): `dd` and `hybrid` run the raw `dd` copy, `windows` the
installer format-and-extract, anything else the iso9660
format-and-extract. -/
def strategy_of_method (method : String) : Strategy :=
  if method = "dd" || method = "hybrid" then Strategy.rawCopy
  else if method = "windows" then Strategy.osInstallerExtract
  else Strategy.filesystemExtract

/-- C7: automatic selection resolves to the installer-extraction
strategy exactly when the installer probe succeeded (found the
`sources/install.wim` payload), and to raw copy in every other case —
including boot-marker images (`hybrid`), the default (`dd`), and every
probe failure. -/
theorem determine_best_method_strategy
    (wp ep ip : Except Unit Bool) (host : Bool) :
    strategy_of_method (determine_best_method wp ep ip host)
      = (match wp with
         | Except.ok true => Strategy.osInstallerExtract
         | _ => Strategy.rawCopy) := by
  rcases wp with u | b
  · cases host
    · rcases ep with v | c
      · rfl
      · cases c
        · rcases ip with t | d
          · rfl
          · cases d <;> rfl
        · rfl
    · rfl
  · cases b
    · cases host
      · rcases ep with v | c
        · rfl
        · cases c
          · rcases ip with t | d
            · rfl
            · cases d <;> rfl
          · rfl
      · rfl
    · rfl

/-! ## Device enumeration (`src/core/disk_manager_linux.py`)

`lsblk` output is modeled post-tokenization: each line of stdout becomes
the list of its whitespace-separated fields (Python's `line.split()`,
which drops empty fields — the reason for the source's
mountpoint/fstype fixup). `psutil.disk_partitions(all=True)` entries
reuse `PartitionEntry`. A raised query is `Except.error ()`. -/

/-- Whether `pre` is a prefix of `l` (character lists). -/
def list_starts_with : List Char → List Char → Bool
  | _, [] => true
  | [], _ :: _ => false
  | a :: as, b :: bs => a == b && list_starts_with as bs

/-- Whether `needle` occurs contiguously inside `haystack`. -/
def list_has_substr : List Char → List Char → Bool
  | [], needle => needle.isEmpty
  | a :: rest, needle =>
      list_starts_with (a :: rest) needle || list_has_substr rest needle

/-- Python's `needle in haystack` substring test. -/
def contains_substr (haystack needle : String) : Bool :=
  list_has_substr haystack.toList needle.toList

/-- An entry produced by `DiskManager.list_physical_disks`. -/
structure PhysicalDisk where
  device : String
  size : String
  model : String
  removable : Bool
deriving Repr, DecidableEq

/-- Embeds one iteration of the `lsblk -d` parsing loop of the Linux
`DiskManager.list_physical_disks` (disk_manager_linux.py lines 26-47):
`none` = the line is skipped (`continue` or a malformed line). -/
def parse_lsblk_disk_line (is_removable : String → Bool)
    (parts : List String) : Option PhysicalDisk :=
  if parts.length ≥ 2 ∧ parts.headD "" ≠ "" then
    let device_name := parts.headD ""
    if "loop".isPrefixOf device_name || "sr".isPrefixOf device_name then
      none
    else
      some { device := "/dev/" ++ device_name,
             size := parts[1]?.getD "Unknown",
             model := if parts.length > 4 then
                 String.intercalate " " ((parts.drop 2).take (parts.length - 4))
               else "Unknown",
             removable := is_removable ("/dev/" ++ device_name) }
  else
    none

/-- Embeds the Linux `DiskManager.list_physical_disks`
(disk_manager_linux.py lines 11-52). `query` is the outcome of the
`lsblk` invocation (`Except.error ()` = it raised, e.g. a non-zero exit
under `check=True` or a missing binary); the source's handler prints a
diagnostic and returns the empty list. -/
def list_physical_disks (query : Except Unit (List (List String)))
    (is_removable : String → Bool) : List PhysicalDisk :=
  match query with
  | Except.error _ => []
  | Except.ok rows => rows.filterMap (parse_lsblk_disk_line is_removable)

/-- Disk-usage numbers as returned by `psutil.disk_usage` (the float
percentage is rendered as a natural number; no claim depends on it). -/
structure Usage where
  used : Nat
  free : Nat
  percent : Nat
deriving Repr, DecidableEq

/-- An entry produced by `DiskManager.list_partitions` (the `type` dict
key is named `fstype` here, `type` being reserved). -/
structure PartitionInfo where
  device : String
  size : String
  fstype : Option String
  mountpoint : Option String
  used : Option Nat
  free : Option Nat
  percent_used : Option Nat
deriving Repr, DecidableEq

/-- The filesystem names of the source's mountpoint-column fixup
(disk_manager_linux.py line 94). -/
def lsblk_fstype_names : List String :=
  ["ntfs", "vfat", "ext4", "ext3", "exfat", "btrfs", "xfs"]

/-- Embeds one iteration of the `lsblk` parsing loop of the Linux
`DiskManager.list_partitions` (disk_manager_linux.py lines 70-118):
tree-character stripping, pseudo-device skipping, the mountpoint/fstype
fixup, and the usage lookup for mounted partitions. `usage m = none`
models `psutil.disk_usage(m)` raising (caught; the fields stay `None`);
`ismount` is `os.path.ismount`. -/
def parse_lsblk_part_line (usage : String → Option Usage)
    (ismount : String → Bool) (parts : List String) : Option PartitionInfo :=
  if parts.length ≥ 3 ∧ parts[2]?.getD "" = "part" then
    let raw_name := parts.headD ""
    let device_name :=
      if "├─".isPrefixOf raw_name || "└─".isPrefixOf raw_name then
        raw_name.drop 2
      else raw_name
    if "loop".isPrefixOf device_name || "dm-".isPrefixOf device_name
        || contains_substr device_name "mapper"
        || "ram".isPrefixOf device_name then
      none
    else
      let mountpoint0 : Option String :=
        if parts.length > 3 ∧ parts[3]?.getD "" ≠ "" then some (parts[3]?.getD "")
        else none
      let fstype0 : Option String :=
        if parts.length > 4 then some (parts[4]?.getD "") else none
      let fixed :=
        match mountpoint0, fstype0 with
        | some m, none =>
            if lsblk_fstype_names.contains m then ((none : Option String), some m)
            else (some m, none)
        | m, f => (m, f)
      let mountpoint := fixed.1
      let fstype := fixed.2
      let nums :=
        match mountpoint with
        | some m =>
            if ¬ (m ∈ ["", "/", "/boot", "/boot/efi"]) ∧ ismount m then
              match usage m with
              | some u => (some u.used, some u.free, some u.percent)
              | none => ((none : Option Nat), (none : Option Nat), (none : Option Nat))
            else (none, none, none)
        | none => (none, none, none)
      some { device := "/dev/" ++ device_name,
             size := parts[1]?.getD "Unknown",
             fstype := fstype,
             mountpoint := mountpoint,
             used := nums.1,
             free := nums.2.1,
             percent_used := nums.2.2 }
  else
    none

/-- The pseudo-filesystem names skipped by the psutil pass of the Linux
`DiskManager.list_partitions` (disk_manager_linux.py lines 138-143). -/
def psutil_pseudo_fstypes : List String :=
  ["tmpfs", "devtmpfs", "devfs", "overlay", "squashfs", "proc", "sysfs",
   "cgroup", "cgroup2", "debugfs", "pstore", "bpf", "tracefs", "securityfs",
   "ramfs", "devpts", "efivarfs", "autofs", "hugetlbfs", "mqueue", "fusectl",
   "configfs", "binfmt_misc", "nsfs", "fuse.portal", "fuse.gvfsd-fuse"]

/-- Python's `device_path.split('/')[-1]`, used throughout the sources. -/
def path_basename (device_path : String) : String :=
  (device_path.splitOn "/").getLastD ""

/-- The skip conditions of the psutil pass of the Linux
`DiskManager.list_partitions` (disk_manager_linux.py lines 128-144):
pseudo block devices and pseudo filesystems. -/
def psutil_skip (part : PartitionEntry) : Bool :=
  let device_name := path_basename part.device
  "loop".isPrefixOf device_name || "dm-".isPrefixOf device_name
    || "ram".isPrefixOf device_name
    || contains_substr device_name "mapper"
    || contains_substr part.device "/dev/zram"
    || psutil_pseudo_fstypes.contains part.fstype

/-- One appended entry of the psutil pass (disk_manager_linux.py lines
146-165). -/
def psutil_partition_entry (usage : String → Option Usage)
    (part : PartitionEntry) : PartitionInfo :=
  let nums :=
    if part.mountpoint ≠ "" then
      match usage part.mountpoint with
      | some u => (some u.used, some u.free, some u.percent)
      | none => ((none : Option Nat), (none : Option Nat), (none : Option Nat))
    else (none, none, none)
  { device := part.device,
    size := "Unknown",
    fstype := some part.fstype,
    mountpoint := some part.mountpoint,
    used := nums.1,
    free := nums.2.1,
    percent_used := nums.2.2 }

/-- Embeds the Linux `DiskManager.list_partitions`
(disk_manager_linux.py lines 55-170): the `lsblk` pass followed by the
psutil pass (which skips devices already listed), all inside one `try`
whose handler prints a diagnostic and returns the empty list. `query`
carries both the `lsblk` rows and the `psutil.disk_partitions(all=True)`
entries; `Except.error ()` = either query raised. -/
def list_partitions (query : Except Unit (List (List String) × List PartitionEntry))
    (usage : String → Option Usage) (ismount : String → Bool) : List PartitionInfo :=
  match query with
  | Except.error _ => []
  | Except.ok (rows, psutil_parts) =>
      let fromLsblk := rows.filterMap (parse_lsblk_part_line usage ismount)
      psutil_parts.foldl (fun acc part =>
        if acc.any (fun p => p.device == part.device) then acc
        else if psutil_skip part then acc
        else acc ++ [psutil_partition_entry usage part]) fromLsblk

/-- C6 counterexample: a failed inventory query and a successful scan
that found nothing produce the very same value — the empty list — for
both enumeration calls; no error is signalled to the caller, so the two
situations are indistinguishable from the result. -/
theorem enumeration_failure_counterexample :
    list_physical_disks (Except.error ()) (fun _ => false)
      = list_physical_disks (Except.ok []) (fun _ => false) ∧
    list_physical_disks (Except.error ()) (fun _ => false) = [] ∧
    list_partitions (Except.error ()) (fun _ => none) (fun _ => false)
      = list_partitions (Except.ok ([], [])) (fun _ => none) (fun _ => false) ∧
    list_partitions (Except.error ()) (fun _ => none) (fun _ => false) = [] := by
  exact ⟨rfl, rfl, rfl, rfl⟩

/-- C6 amended: on query failure both enumeration calls return the empty
list (after printing a diagnostic); the returned value carries no error
indication. -/
theorem enumeration_failure_amended (is_removable : String → Bool)
    (usage : String → Option Usage) (ismount : String → Bool) :
    list_physical_disks (Except.error ()) is_removable = [] ∧
    list_partitions (Except.error ()) usage ismount = [] := by
  exact ⟨rfl, rfl⟩

/-! ## Formatting (`format_device` on the three backends)

Each backend is embedded as a function from the outcomes of its external
checks (`is_safe_device`, the format command's success) to the trace of
subprocess argv lists it issues against the device, paired with its
result: `Except.error` models a raised exception (`PyError.valueError`
for the source's own `raise ValueError`), `Except.ok b` a normal return
of `b`. Each backend's second step is the `self.safety.get_confirmation`
call, which always raises (see `safety_get_confirmation`), so every
branch after it — unmount, dispatch, format command — is embedded as
written but is unreachable in the program. -/

/-- Embeds the Linux `DiskManager.format_device`
(disk_manager_linux.py lines 184-215): safety check, the always-raising
confirmation call (line 189), then — unreachably — `_unmount_device`
(an `umount` invocation, line 220), the `format_commands` dispatch with
its membership check, and the `mkfs` invocation (`mkfs_ok` = it exited
zero; a `CalledProcessError` is caught and mapped to `False`). -/
def format_device_linux (safe mkfs_ok : Bool)
    (device_path filesystem : String) : List (List String) × Except PyError Bool :=
  if !safe then
    ([], Except.error (PyError.valueError
      ("Cannot format system device: " ++ device_path)))
  else
    match safety_get_confirmation device_path "format" with
    | Except.error e => ([], Except.error e)
    | Except.ok false => ([], Except.ok false)
    | Except.ok true =>
        let pre := [["umount", device_path]]
        if filesystem = "ext4" then
          (pre ++ [["mkfs.ext4", "-F", device_path]], Except.ok mkfs_ok)
        else if filesystem = "fat32" then
          (pre ++ [["mkfs.vfat", "-F", "32", device_path]], Except.ok mkfs_ok)
        else if filesystem = "ntfs" then
          (pre ++ [["mkfs.ntfs", "-f", device_path]], Except.ok mkfs_ok)
        else
          (pre, Except.error (PyError.valueError
            ("Unsupported filesystem: " ++ filesystem)))

/-- Embeds the macOS `DiskManager.format_device`
(disk_manager_mac.py lines 200-250): safety check, the always-raising
confirmation call (line 205), then — unreachably — `_unmount_device`
(a `diskutil unmount` invocation, line 256) and the filesystem dispatch
(`diskutil` invocation; `cmd_ok` = it exited zero, a
`CalledProcessError` is caught and mapped to `False`), with an unknown
identifier raising `ValueError`. -/
def format_device_mac (safe cmd_ok : Bool)
    (device_path filesystem : String) : List (List String) × Except PyError Bool :=
  if !safe then
    ([], Except.error (PyError.valueError
      ("Cannot format system device: " ++ device_path)))
  else
    match safety_get_confirmation device_path "format" with
    | Except.error e => ([], Except.error e)
    | Except.ok false => ([], Except.ok false)
    | Except.ok true =>
        let device_name := path_basename device_path
        let pre := [["diskutil", "unmount", device_name]]
        if filesystem = "apfs" then
          (pre ++ [["diskutil", "apfs", "create", device_name, "Untitled"]],
           Except.ok cmd_ok)
        else if filesystem = "hfs+" then
          (pre ++ [["diskutil", "eraseDisk", "HFS+", "Untitled", device_name]],
           Except.ok cmd_ok)
        else if filesystem = "fat32" then
          (pre ++ [["diskutil", "eraseDisk", "FAT32", "Untitled", device_name]],
           Except.ok cmd_ok)
        else if filesystem = "exfat" then
          (pre ++ [["diskutil", "eraseDisk", "ExFAT", "Untitled", device_name]],
           Except.ok cmd_ok)
        else
          (pre, Except.error (PyError.valueError
            ("Unsupported filesystem: " ++ filesystem)))

/-- Embeds the Windows `DiskManager.format_device`
(disk_manager_window.py lines 178-211): safety check, the always-raising
confirmation call (line 183), then — unreachably — the filesystem
dispatch building the `format` command (no unmount on this backend),
with an unknown identifier raising `ValueError` before any command
(`format_ok` = the `format` command exited zero, a `CalledProcessError`
is caught and mapped to `False`). -/
def format_device_windows (safe format_ok : Bool)
    (device_path filesystem : String) : List (List String) × Except PyError Bool :=
  if !safe then
    ([], Except.error (PyError.valueError
      ("Cannot format system device: " ++ device_path)))
  else
    match safety_get_confirmation device_path "format" with
    | Except.error e => ([], Except.error e)
    | Except.ok false => ([], Except.ok false)
    | Except.ok true =>
        if filesystem = "ntfs" then
          ([["format", device_path, "/fs:ntfs", "/q", "/y"]], Except.ok format_ok)
        else if filesystem = "fat32" then
          ([["format", device_path, "/fs:fat32", "/q", "/y"]], Except.ok format_ok)
        else if filesystem = "exfat" then
          ([["format", device_path, "/fs:exfat", "/q", "/y"]], Except.ok format_ok)
        else
          ([], Except.error (PyError.valueError
            ("Unsupported filesystem: " ++ filesystem)))

/-- C8: evaluating the three `format_device` backends at a safe device
and the unsupported identifier `btrfs`: each fails with the
`AttributeError` raised by the nonexistent
`SafetyManager.get_confirmation` — not with the unsupported-filesystem
`ValueError` — and issues no OS command at all; the
unsupported-filesystem validation (and, on Linux/macOS, the unmount that
would precede it) is unreachable. -/
theorem format_device_attribute_error :
    format_device_linux true true "/dev/sdb" "btrfs"
      = ([], Except.error (PyError.attributeError
          "SafetyManager object has no attribute get_confirmation")) ∧
    format_device_mac true true "/dev/sdb" "btrfs"
      = ([], Except.error (PyError.attributeError
          "SafetyManager object has no attribute get_confirmation")) ∧
    format_device_windows true true "/dev/sdb" "btrfs"
      = ([], Except.error (PyError.attributeError
          "SafetyManager object has no attribute get_confirmation")) := by
  exact ⟨rfl, rfl, rfl⟩

/-! ## Removability (`_is_removable` on the three backends) -/

/-- Embeds the Linux `DiskManager._is_removable`
(disk_manager_linux.py lines 173-182): the sysfs read is an `Option`
input (`none` = the open or read raised, caught and mapped to `False`). -/
def is_removable_linux (sysfs_read : Option String) : Bool :=
  match sysfs_read with
  | some contents => contents.trim == "1"
  | none => false

/-- The `diskutil info -plist` fields consulted by the macOS
`DiskManager._is_removable`; a missing key is `none` (the source reads
each with `.get(key, False)`). -/
structure MacDiskInfo where
  ejectable : Option Bool
  removableMedia : Option Bool
  external : Option Bool
deriving Repr, DecidableEq

/-- Embeds the macOS `DiskManager._is_removable`
(disk_manager_mac.py lines 167-190): `Except.error ()` = the `diskutil`
invocation or the plist parse raised (caught and mapped to `False`). -/
def is_removable_mac (probe : Except Unit MacDiskInfo) : Bool :=
  match probe with
  | Except.error _ => false
  | Except.ok info =>
      info.ejectable.getD false || info.removableMedia.getD false
        || info.external.getD false

/-- The Windows media-type test
`disk.MediaType and ("removable" in ... or "external" in ...)`
(disk_manager_window.py lines 160-161): a null `MediaType` is falsy. -/
def media_type_removable (mediaType : Option String) : Bool :=
  match mediaType with
  | none => false
  | some m =>
      contains_substr m.toLower "removable" || contains_substr m.toLower "external"

/-- Embeds the Windows `DiskManager._is_removable`
(disk_manager_window.py lines 150-164): with no WMI connection the
function returns `False`; otherwise the disk query (`Except.error ()` =
it raised) yields the list of matching disks' `MediaType` values, and
the loop returns the test on the first one, or `False` when the query
matched no disk. -/
def is_removable_windows (has_wmi : Bool)
    (probe : Except Unit (List (Option String))) : Bool :=
  if has_wmi then
    match probe with
    | Except.error _ => false
    | Except.ok [] => false
    | Except.ok (mt :: _) => media_type_removable mt
  else
    false

/-- C9: whenever removability cannot be determined — the sysfs read
raises (Linux), the `diskutil` probe raises or the plist carries none of
the three flags (macOS), WMI is unavailable, the WMI query raises,
matches no disk, or the disk's MediaType is null (Windows) — the
reported removable flag is `false`, never `true`. -/
theorem removability_defaults_false :
    is_removable_linux none = false ∧
    is_removable_mac (Except.error ()) = false ∧
    is_removable_mac (Except.ok ⟨none, none, none⟩) = false ∧
    is_removable_windows true (Except.error ()) = false ∧
    is_removable_windows true (Except.ok []) = false ∧
    is_removable_windows true (Except.ok [none]) = false ∧
    is_removable_windows false (Except.ok [some "Removable Media"]) = false := by
  exact ⟨rfl, rfl, rfl, rfl, rfl, rfl, rfl⟩
